import Mathlib

/-!
Verification of the Advancedbeam wrapper (`src/advancedbeam.py`) against its
specification.  The wrapper is a single-form Streamlit front end that builds an
`indeterminatebeam` model (Beam / Support / PointLoadV / UDLV / PointTorque),
runs `beam.analyse()` and reports reactions and field diagrams.

The wrapper's own logic (constants, `SUPPORT_MAP`, the `dropna` row filters,
the load-dispatch `if/elif` chain, the session-state caching) is embedded
directly from the source.  The numerical engine (`indeterminatebeam`) is an
external dependency whose source is not part of this repository; the parts of
it that claims depend on (construction-time validation, and the analysis of
the default fixed-fixed scenario) are modelled from the specification and say
so in their doc comments.  All numbers are rationals.
-/

namespace Advancedbeam

/-! ### Engine entity model (types as used by the wrapper) -/

/-- Load variants as constructed by the wrapper: `PointLoadV(mag, x)`,
`UDLV(mag, (x0, xe))`, `PointTorque(mag, x)`. -/
inductive Load where
  | pointLoadV (mag : ℚ) (x : ℚ)
  | udlv (mag : ℚ) (span : ℚ × ℚ)
  | pointTorque (mag : ℚ) (x : ℚ)
  deriving DecidableEq, Repr

/-- `Support(position, (Ux, Uy, Rz))` as constructed by the wrapper;
the restraint triple is the 0/1 tuple taken from `SUPPORT_MAP`. -/
structure Support where
  position : ℚ
  restraint : ℕ × ℕ × ℕ
  deriving DecidableEq, Repr

/-- A fully built engine model: beam geometry plus the supports and loads the
wrapper added to it. -/
structure Model where
  length : ℚ
  E : ℚ
  I : ℚ
  supports : List Support
  loads : List Load
  deriving DecidableEq, Repr

/-- Modelled from the spec: error taxonomy of §7 (`InvalidGeometry`,
`InvalidPosition`, `UnstableStructure`, `SingularSystem`). -/
inductive EngineError where
  | invalidGeometry
  | invalidPosition
  | unstableStructure
  | singularSystem
  deriving DecidableEq, Repr

/-- Failures the wrapper run can surface: an engine error, or a Python
`KeyError` from `SUPPORT_MAP[row.type]` on a type label outside the map. -/
inductive AppError where
  | engine (e : EngineError)
  | keyError
  deriving DecidableEq, Repr

/-! ### Wrapper constants and input rows (from `src/advancedbeam.py`) -/

/-- `DEFAULT_L = 6.0` (line 15). -/
def DEFAULT_L : ℚ := 6

/-- One row of the supports data editor: columns `x`, `type`, either possibly
missing (pandas `NaN` is modelled as `none`). -/
structure SupportRow where
  x : Option ℚ
  type : Option String
  deriving DecidableEq, Repr

/-- One row of the loads data editor: columns `kind`, `magnitude`, `x`,
`x_end`, each possibly missing. -/
structure LoadRow where
  kind : Option String
  magnitude : Option ℚ
  x : Option ℚ
  x_end : Option ℚ
  deriving DecidableEq, Repr

/-- `DEFAULT_SUPPORTS` (lines 16-19): two fixed ends. -/
def DEFAULT_SUPPORTS : List SupportRow :=
  [⟨some 0, some ("Fixed")⟩, ⟨some DEFAULT_L, some ("Fixed")⟩]

/-- `DEFAULT_LOADS` (lines 20-22): a single downward point load at mid-span,
with `x_end = None`. -/
def DEFAULT_LOADS : List LoadRow :=
  [⟨some ("Point Load"), some (-10000), some (DEFAULT_L / 2), none⟩]

/-- `SUPPORT_MAP` (lines 24-28): dropdown label to `(Ux, Uy, Rz)` tuple.
A label outside the dictionary raises `KeyError`, modelled as `none`. -/
def SUPPORT_MAP (t : String) : Option (ℕ × ℕ × ℕ) :=
  if t = "Fixed" then some (1, 1, 1)
  else if t = "Pin" then some (1, 1, 0)
  else if t = "Roller" then some (0, 1, 0)
  else none

/-! ### Row filtering and construction (lines 89-103) -/

/-- `supports_df.dropna()` (line 89): a row is kept only if no cell is
missing. -/
def dropnaSupports (rows : List SupportRow) : List SupportRow :=
  rows.filter fun r => r.x.isSome && r.type.isSome

/-- `loads_df.dropna(subset=["kind", "magnitude", "x"])` (line 93): a row is
kept only if `kind`, `magnitude` and `x` are all present (`x_end` may be
missing). -/
def dropnaLoads (rows : List LoadRow) : List LoadRow :=
  rows.filter fun r => r.kind.isSome && r.magnitude.isSome && r.x.isSome

/-- `Support(float(row["x"]), SUPPORT_MAP[row["type"]])` (line 90) for one
surviving row; `none` is the `KeyError` on an unknown type label. -/
def buildSupport (r : SupportRow) : Option Support :=
  match r.x, r.type with
  | some x, some t => (SUPPORT_MAP t).map fun tr => ⟨x, tr⟩
  | _, _ => none

/-- The supports loop body: build a `Support` from each row in order; a
`KeyError` on any row aborts the run. -/
def buildSupportList : List SupportRow → Option (List Support)
  | [] => some []
  | r :: rs =>
    match buildSupport r, buildSupportList rs with
    | some s, some ss => some (s :: ss)
    | _, _ => none

/-- The supports loop (lines 89-90): `dropna`, then build a `Support` from
every surviving row. -/
def buildSupports (rows : List SupportRow) : Option (List Support) :=
  buildSupportList (dropnaSupports rows)

/-- The load-dispatch `if/elif` chain (lines 94-103) for one surviving row.
`x_end` defaults to `x` when absent (line 100).  A `kind` matching no branch
falls through and contributes nothing (`none`). -/
def buildLoad (r : LoadRow) : Option Load :=
  match r.kind, r.magnitude, r.x with
  | some kind, some mag, some x0 =>
    if kind = "Point Load" then some (.pointLoadV mag x0)
    else if kind = "UDL" then some (.udlv mag (x0, r.x_end.getD x0))
    else if kind = "Torque" then some (.pointTorque mag x0)
    else none
  | _, _, _ => none

/-- The loads loop (line 93): every row surviving `dropna` is dispatched;
rows whose `kind` matches no branch are silently skipped. -/
def buildLoads (rows : List LoadRow) : List Load :=
  (dropnaLoads rows).filterMap buildLoad

/-! ### Spec-modelled engine validation -/

/-- Modelled from the spec (§4.1): a support position must lie in
`[0, length]`.  The validating code is inside the external
`indeterminatebeam` engine, not in this repository. -/
def validSupport (length : ℚ) (s : Support) : Bool :=
  decide (0 ≤ s.position) && decide (s.position ≤ length)

/-- Modelled from the spec (§4.1): every load position must lie in
`[0, length]` and a distributed load must have `start ≤ end`.  The validating
code is inside the external `indeterminatebeam` engine, not in this
repository. -/
def validLoad (length : ℚ) (l : Load) : Bool :=
  match l with
  | .pointLoadV _ x => decide (0 ≤ x) && decide (x ≤ length)
  | .udlv _ (a, b) => decide (0 ≤ a) && decide (a ≤ b) && decide (b ≤ length)
  | .pointTorque _ x => decide (0 ≤ x) && decide (x ≤ length)

/-- Modelled from the spec (§4.1, §7): model construction fails with
`InvalidGeometry` on non-positive `length`, `E` or `I` (checked first, at
`Beam(...)`), then with `InvalidPosition` if any support or load violates the
position contract; otherwise the frozen model is produced.  The construction
code is inside the external `indeterminatebeam` engine. -/
def buildModel (length E I : ℚ) (supports : List Support) (loads : List Load) :
    Except EngineError Model :=
  if length ≤ 0 ∨ E ≤ 0 ∨ I ≤ 0 then .error .invalidGeometry
  else if supports.all (validSupport length) && loads.all (validLoad length) then
    .ok ⟨length, E, I, supports, loads⟩
  else .error .invalidPosition

/-! ### The submitted-form pipeline (lines 86-106) -/

/-- Everything the form submits: geometry/material numbers and the two edited
tables. -/
structure Input where
  length : ℚ
  E : ℚ
  I : ℚ
  srows : List SupportRow
  lrows : List LoadRow
  deriving DecidableEq, Repr

/-- The body of `if submitted:` up to `beam.analyse()` (lines 86-106):
build the beam, add the supports (a `KeyError` aborts), add the loads, and
hand the frozen model to the engine. -/
def runPipeline (inp : Input) : Except AppError Model :=
  if inp.length ≤ 0 ∨ inp.E ≤ 0 ∨ inp.I ≤ 0 then .error (.engine .invalidGeometry)
  else
    match buildSupports inp.srows with
    | none => .error .keyError
    | some sups =>
      match buildModel inp.length inp.E inp.I sups (buildLoads inp.lrows) with
      | .error e => .error (.engine e)
      | .ok m => .ok m

/-! ### Session state (lines 80-83) -/

/-- The persistent Streamlit session state: the cached `supports_df` and
`loads_df` tables. -/
structure Session where
  supports_df : List SupportRow
  loads_df : List LoadRow
  deriving DecidableEq, Repr

/-- One script rerun (lines 80-106): if the form was submitted the two tables
are written to the session cache (lines 82-83) and only then is the model
built and analysed; without a submission nothing happens.  The analysis
result is a function of the submitted input alone. -/
def appStep (s : Session) (inp : Input) (submitted : Bool) :
    Session × Option (Except AppError Model) :=
  if submitted then (⟨inp.srows, inp.lrows⟩, some (runPipeline inp))
  else (s, none)

/-! ### Spec-modelled analysis of the fixed-fixed single-point-load case

The wrapper's default model (`DEFAULT_SUPPORTS`/`DEFAULT_LOADS`) is a beam
fixed at both ends with one vertical point load.  The general assembler,
solver and field reconstructor live in the external `indeterminatebeam`
engine; the specification (§4.2-§4.4) is modelled here for exactly this
configuration: the fields are Macaulay (singularity-function) integrals with
upward-positive sign convention, the two integration constants vanish by the
fixed left end, and the two unknown left-end reactions are the solution of
the compatibility equations `slope(L) = 0` and `deflection(L) = 0`; the
remaining reactions follow from the two in-plane equilibrium equations. -/

/-- Macaulay bracket `⟨x - a⟩^n`: zero left of `a`, `(x - a)^n` from `a` on. -/
def mac (x a : ℚ) (n : ℕ) : ℚ :=
  if x < a then 0 else (x - a) ^ n

/-- A fixed-fixed beam of span `L`, stiffness `E·I`, carrying one vertical
point load of signed magnitude `P` at position `a`. -/
structure FFBeam where
  L : ℚ
  E : ℚ
  I : ℚ
  P : ℚ
  a : ℚ
  deriving DecidableEq, Repr

namespace FFBeam

/-- Distance from the load to the right support. -/
def b (m : FFBeam) : ℚ := m.L - m.a

/-- Modelled from the spec (§4.3): vertical reaction at the left fixed
support, the closed-form solution of the compatibility system (Gaussian
elimination of `slope(L) = 0` and `defl(L) = 0` in the two unknowns). -/
def R0 (m : FFBeam) : ℚ := m.P * m.b ^ 2 * (2 * m.b - 3 * m.L) / m.L ^ 3

/-- Modelled from the spec (§4.3): moment reaction at the left fixed support,
back-substituted from `slope(L) = 0`. -/
def M0 (m : FFBeam) : ℚ := -(m.P * m.b ^ 2) / (2 * m.L) - R0 m * m.L / 2

/-- Modelled from the spec (§4.2): vertical reaction at the right fixed
support, from vertical equilibrium `ΣFy = 0`. -/
def RL (m : FFBeam) : ℚ := -m.P - R0 m

/-- Modelled from the spec (§4.2): moment reaction at the right fixed
support, from moment equilibrium `ΣM = 0` about `x = 0`. -/
def ML (m : FFBeam) : ℚ := -(M0 m) - RL m * m.L - m.P * m.a

/-- Modelled from the spec (§4.4): shear `V(x)`, the running sum of point
forces up to `x`, upward positive. -/
def shear (m : FFBeam) (x : ℚ) : ℚ := R0 m + m.P * mac x m.a 0

/-- Modelled from the spec (§4.4): bending moment `M(x)`, the running
integral of shear plus the left-end couple. -/
def moment (m : FFBeam) (x : ℚ) : ℚ := M0 m + R0 m * x + m.P * mac x m.a 1

/-- Modelled from the spec (§4.4): slope `θ(x) = ∫ M / (EI) dx`, with the
integration constant fixed by `θ(0) = 0` at the left fixed support. -/
def slope (m : FFBeam) (x : ℚ) : ℚ :=
  (M0 m * x + R0 m * x ^ 2 / 2 + m.P * mac x m.a 2 / 2) / (m.E * m.I)

/-- Modelled from the spec (§4.4): deflection `v(x) = ∫ θ dx`, with the
integration constant fixed by `v(0) = 0` at the left fixed support. -/
def defl (m : FFBeam) (x : ℚ) : ℚ :=
  (M0 m * x ^ 2 / 2 + R0 m * x ^ 3 / 6 + m.P * mac x m.a 3 / 6) / (m.E * m.I)

end FFBeam

/-- Modelled from the spec (§4.2): the Equation Assembler recognises the
configuration a frozen model presents.  For a model whose supports are fixed
ends at `0` and `length` and whose only load is one vertical point force,
the engine's analysis is the `FFBeam` closed-form solution. -/
def analyseFF (m : Model) : Option FFBeam :=
  match m.loads with
  | [.pointLoadV p a] =>
    if m.supports = [⟨0, (1, 1, 1)⟩, ⟨m.length, (1, 1, 1)⟩] then
      some ⟨m.length, m.E, m.I, p, a⟩
    else none
  | _ => none

/-- The default scenario: span 6 m, `E = 200e9`, `I = 9.05e-6`, fixed ends,
`P = -10000 N` at mid-span. -/
def defaultFF : FFBeam := ⟨6, 200e9, 9.05e-6, -10000, 3⟩

/-- The wrapper's default submitted input: the `number_input` defaults for
`length`, `E`, `I` and the two default tables. -/
def defaultInput : Input := ⟨DEFAULT_L, 200e9, 9.05e-6, DEFAULT_SUPPORTS, DEFAULT_LOADS⟩

/-- Sanity of the spec-modelled solver: for any span and load position in
range, the closed-form reactions satisfy the spec's compatibility conditions
(zero slope and zero deflection at the right fixed end) and its equilibrium
equations; the left-end conditions hold by construction. -/
theorem ffbeam_solves_spec_system (m : FFBeam) (hL : 0 < m.L) (ha0 : 0 ≤ m.a)
    (haL : m.a ≤ m.L) :
    m.defl 0 = 0 ∧ m.slope 0 = 0 ∧ m.defl m.L = 0 ∧ m.slope m.L = 0 ∧
      m.R0 + m.RL + m.P = 0 ∧ m.M0 + m.ML + m.RL * m.L + m.P * m.a = 0 := by
  have hLne : m.L ≠ 0 := ne_of_gt hL
  have hmac0 : ∀ n : ℕ, 1 ≤ n → mac 0 m.a n = 0 := by
    intro n hn
    unfold mac
    rcases lt_or_ge (0 : ℚ) m.a with h | h
    · simp [h]
    · have haz : m.a = 0 := le_antisymm h ha0
      simp [haz, zero_pow (by omega : n ≠ 0)]
  have hmacL : ∀ n : ℕ, mac m.L m.a n = m.b ^ n := by
    intro n
    unfold mac FFBeam.b
    simp [not_lt.mpr haL]
  refine ⟨?_, ?_, ?_, ?_, ?_, ?_⟩
  · simp [FFBeam.defl, hmac0 3 (by norm_num)]
  · simp [FFBeam.slope, hmac0 2 (by norm_num)]
  · unfold FFBeam.defl
    rw [hmacL 3]
    unfold FFBeam.M0 FFBeam.R0 FFBeam.b
    field_simp
    ring_nf
    exact Or.inl trivial
  · unfold FFBeam.slope
    rw [hmacL 2]
    unfold FFBeam.M0 FFBeam.R0 FFBeam.b
    field_simp
    ring_nf
    exact Or.inl trivial
  · unfold FFBeam.RL; ring
  · unfold FFBeam.ML; ring

/-! ### Claim theorems -/

/-- Distinctness of the dropdown labels, packaged for `simp`. -/
theorem pin_ne_fixed : (("Pin" : String) = "Fixed") = False := by simp

/-- Distinctness of the dropdown labels, packaged for `simp`. -/
theorem roller_ne_fixed : (("Roller" : String) = "Fixed") = False := by simp

/-- Distinctness of the dropdown labels, packaged for `simp`. -/
theorem roller_ne_pin : (("Roller" : String) = "Pin") = False := by simp

/-- Distinctness of the dropdown labels, packaged for `simp`. -/
theorem udl_ne_pointload : (("UDL" : String) = "Point Load") = False := by simp

/-- Distinctness of the dropdown labels, packaged for `simp`. -/
theorem torque_ne_pointload : (("Torque" : String) = "Point Load") = False := by simp

/-- Distinctness of the dropdown labels, packaged for `simp`. -/
theorem torque_ne_udl : (("Torque" : String) = "UDL") = False := by simp

/-- C1: analysing the wrapper's default model (span 6 m, `E = 200e9`,
`I = 9.05e-6`, fixed supports at `x = 0` and `x = 6`, a single point load of
`-10000 N` at `x = 3`) yields vertical reactions of 5000 N upward at each
support, moment reactions of equal magnitude whose difference nets to zero,
and a deflection whose magnitude is largest at mid-span, where it equals
`w L^3 / (192 E I)` for `w = 10000 N`. -/
theorem default_scenario_analysis :
    ∃ md : Model,
      runPipeline defaultInput = .ok md ∧
      analyseFF md = some defaultFF ∧
      defaultFF.R0 = 5000 ∧ defaultFF.RL = 5000 ∧
      |defaultFF.M0| = |defaultFF.ML| ∧ defaultFF.M0 + defaultFF.ML = 0 ∧
      defaultFF.defl 3 = -(10000 * 6 ^ 3 / (192 * (200e9 : ℚ) * (9.05e-6 : ℚ))) ∧
      ∀ x : ℚ, 0 ≤ x → x ≤ 6 → |defaultFF.defl x| ≤ |defaultFF.defl 3| := by
  refine ⟨⟨6, 200e9, 9.05e-6, [⟨0, (1, 1, 1)⟩, ⟨6, (1, 1, 1)⟩],
    [.pointLoadV (-10000) 3]⟩, ?_, ?_, ?_, ?_, ?_, ?_, ?_, ?_⟩
  · norm_num [runPipeline, defaultInput, DEFAULT_SUPPORTS, DEFAULT_LOADS, DEFAULT_L,
      buildSupports, buildSupportList, dropnaSupports, buildSupport, SUPPORT_MAP,
      buildLoads, dropnaLoads, buildLoad, buildModel, validSupport, validLoad,
      List.filterMap_cons, List.filterMap_nil, Option.getD]
  · norm_num [analyseFF, defaultFF]
  · norm_num [FFBeam.R0, FFBeam.b, defaultFF]
  · norm_num [FFBeam.RL, FFBeam.R0, FFBeam.b, defaultFF]
  · norm_num [FFBeam.ML, FFBeam.M0, FFBeam.RL, FFBeam.R0, FFBeam.b, defaultFF]
  · norm_num [FFBeam.ML, FFBeam.M0, FFBeam.RL, FFBeam.R0, FFBeam.b, defaultFF]
  · norm_num [FFBeam.defl, FFBeam.M0, FFBeam.R0, FFBeam.b, mac, defaultFF]
  · intro x hx0 hx6
    have h3v : defaultFF.defl 3 = -(9/1448) := by
      norm_num [FFBeam.defl, FFBeam.M0, FFBeam.R0, FFBeam.b, mac, defaultFF]
    rw [h3v]
    have habs : |(-(9/1448) : ℚ)| = 9/1448 := by norm_num
    rw [habs, abs_le]
    rcases lt_or_ge x 3 with h | h
    · have hmac : mac x 3 3 = 0 := by simp [mac, h]
      constructor
      · simp only [FFBeam.defl, FFBeam.M0, FFBeam.R0, FFBeam.b, defaultFF, hmac]
        norm_num
        nlinarith [mul_nonneg (sq_nonneg (x - 3)) (show (0:ℚ) ≤ x + 3/2 by linarith)]
      · simp only [FFBeam.defl, FFBeam.M0, FFBeam.R0, FFBeam.b, defaultFF, hmac]
        norm_num
        nlinarith [mul_nonneg (sq_nonneg x) (show (0:ℚ) ≤ 9/2 - x by linarith)]
    · have hmac : mac x 3 3 = (x - 3) ^ 3 := by simp [mac, not_lt.mpr h]
      constructor
      · simp only [FFBeam.defl, FFBeam.M0, FFBeam.R0, FFBeam.b, defaultFF, hmac]
        norm_num
        nlinarith [mul_nonneg (sq_nonneg (x - 3)) (show (0:ℚ) ≤ 9/2 - (x - 3) by linarith)]
      · simp only [FFBeam.defl, FFBeam.M0, FFBeam.R0, FFBeam.b, defaultFF, hmac]
        norm_num
        nlinarith [mul_nonneg (sq_nonneg (x - 6)) (show (0:ℚ) ≤ x - 3/2 by linarith)]

/-- Witness for C1: the mid-span maximality statement applied at `x = 1`. -/
theorem default_scenario_analysis_witness :
    |defaultFF.defl 1| ≤ |defaultFF.defl 3| := by
  obtain ⟨md, -, -, -, -, -, -, -, hmax⟩ := default_scenario_analysis
  exact hmax 1 (by norm_num) (by norm_num)

/-- C2: `SUPPORT_MAP` sends Fixed to `(1,1,1)`, Pin to `(1,1,0)` and Roller
to `(0,1,0)`, and the `Support` built from a row carries the mapped triple at
the row's position. -/
theorem support_map_restraints :
    SUPPORT_MAP ("Fixed") = some (1, 1, 1) ∧
    SUPPORT_MAP ("Pin") = some (1, 1, 0) ∧
    SUPPORT_MAP ("Roller") = some (0, 1, 0) ∧
    ∀ (x : ℚ) (t : String) (tr : ℕ × ℕ × ℕ), SUPPORT_MAP t = some tr →
      buildSupport ⟨some x, some t⟩ = some ⟨x, tr⟩ := by
  refine ⟨rfl, rfl, rfl, ?_⟩
  intro x t tr h
  simp [buildSupport, h]

/-- Witness for C2: the row `(x = 2, Pin)` yields the support at 2 with
restraint `(1,1,0)`. -/
theorem support_map_restraints_witness :
    buildSupport ⟨some 2, some ("Pin")⟩ = some ⟨2, (1, 1, 0)⟩ :=
  support_map_restraints.2.2.2 2 ("Pin") (1, 1, 0) rfl

/-- A submission carrying a zero-width distributed load (`start = end = 2`)
on an otherwise valid simply supported beam. -/
def degenerateUdlInput : Input :=
  ⟨6, 1, 1, [⟨some 0, some ("Pin")⟩, ⟨some 6, some ("Roller")⟩],
    [⟨some ("UDL"), some 5, some 2, some 2⟩]⟩

/-- C3 counterexample: a distributed load with `start = end` is neither
rejected with `InvalidPosition` nor converted to a point load — the run
succeeds and the model carries the zero-width `UDLV` unchanged. -/
theorem degenerate_udl_cex :
    runPipeline degenerateUdlInput =
      .ok ⟨6, 1, 1, [⟨0, (1, 1, 0)⟩, ⟨6, (0, 1, 0)⟩], [.udlv 5 (2, 2)]⟩ ∧
    ¬ (runPipeline degenerateUdlInput = .error (.engine .invalidPosition) ∨
        ∃ mag x0 : ℚ, (runPipeline degenerateUdlInput).toOption.map Model.loads =
          some [Load.pointLoadV mag x0]) := by
  have h : runPipeline degenerateUdlInput =
      .ok ⟨6, 1, 1, [⟨0, (1, 1, 0)⟩, ⟨6, (0, 1, 0)⟩], [.udlv 5 (2, 2)]⟩ := by
    norm_num [runPipeline, degenerateUdlInput,
      buildSupports, buildSupportList, dropnaSupports, buildSupport, SUPPORT_MAP,
      buildLoads, dropnaLoads, buildLoad, buildModel, validSupport, validLoad,
      List.filterMap_cons, List.filterMap_nil, Option.getD,
      pin_ne_fixed, roller_ne_fixed, roller_ne_pin, udl_ne_pointload]
  refine ⟨h, ?_⟩
  rw [h]
  rintro (hc | ⟨mag, x0, hc⟩) <;> simp_all [Except.toOption]

/-- C3 amended: a distributed-load row whose end equals its start (given
explicitly or defaulted) is passed through unchanged as a zero-width `UDLV`;
the engine's position validation accepts it whenever the position is in
range, so it is silently forwarded rather than rejected or converted. -/
theorem degenerate_udl_passed_through (r : LoadRow) (mag x0 : ℚ)
    (hk : r.kind = some ("UDL")) (hm : r.magnitude = some mag)
    (hx : r.x = some x0) (he : r.x_end = some x0 ∨ r.x_end = none) :
    buildLoad r = some (.udlv mag (x0, x0)) ∧
      ∀ L : ℚ, 0 ≤ x0 → x0 ≤ L → validLoad L (.udlv mag (x0, x0)) = true := by
  constructor
  · rcases he with h | h <;> simp [buildLoad, hk, hm, hx, h]
  · intro L h0 hL
    simp [validLoad, h0, hL]

/-- Witness for the amended C3: the degenerate row `(UDL, 5, 2, 2)` on a 6 m
beam builds `UDLV 5 (2, 2)` and passes validation. -/
theorem degenerate_udl_passed_through_witness :
    buildLoad ⟨some ("UDL"), some 5, some 2, some 2⟩ = some (.udlv 5 (2, 2)) ∧
      validLoad 6 (.udlv 5 (2, 2)) = true := by
  obtain ⟨h1, h2⟩ := degenerate_udl_passed_through
    ⟨some ("UDL"), some 5, some 2, some 2⟩ 5 2 rfl rfl rfl (Or.inl rfl)
  exact ⟨h1, h2 6 (by norm_num) (by norm_num)⟩

/-- C4: a load row of kind UDL whose `x_end` is absent defaults its end to
the start position, producing the zero-width distributed load `(x, x)`. -/
theorem udl_missing_end_defaults (r : LoadRow) (mag x0 : ℚ)
    (hk : r.kind = some ("UDL")) (hm : r.magnitude = some mag)
    (hx : r.x = some x0) (he : r.x_end = none) :
    buildLoad r = some (.udlv mag (x0, x0)) := by
  simp [buildLoad, hk, hm, hx, he]

/-- Witness for C4: the row `(UDL, -300, 1, absent)` builds
`UDLV (-300) (1, 1)`. -/
theorem udl_missing_end_defaults_witness :
    buildLoad ⟨some ("UDL"), some (-300), some 1, none⟩ =
      some (.udlv (-300) (1, 1)) :=
  udl_missing_end_defaults ⟨some ("UDL"), some (-300), some 1, none⟩ (-300) 1
    rfl rfl rfl rfl

/-- C5: any submission with non-positive `length`, `E` or `I` fails with
`InvalidGeometry`, and the analysis does not proceed: the run carries no
model (hence no reactions or field functions). -/
theorem nonpositive_geometry_rejected (inp : Input)
    (h : inp.length ≤ 0 ∨ inp.E ≤ 0 ∨ inp.I ≤ 0) :
    runPipeline inp = .error (.engine .invalidGeometry) ∧
      (runPipeline inp).toOption = none := by
  have hr : runPipeline inp = .error (.engine .invalidGeometry) := by
    unfold runPipeline
    rw [if_pos h]
  exact ⟨hr, by rw [hr]; rfl⟩

/-- Witness for C5: a negative Young's modulus is rejected. -/
theorem nonpositive_geometry_rejected_witness :
    runPipeline ⟨6, -(5), 1, [], []⟩ = .error (.engine .invalidGeometry) ∧
      (runPipeline ⟨6, -(5), 1, [], []⟩).toOption = none :=
  nonpositive_geometry_rejected ⟨6, -(5), 1, [], []⟩ (Or.inr (Or.inl (by norm_num)))

/-- C6: with valid geometry, a submission whose built supports or loads
contain a position outside `[0, length]`, or a distributed load with
`start > end`, fails with `InvalidPosition`; the input is rejected outright,
never clamped or corrected. -/
theorem out_of_range_position_rejected (inp : Input) (sups : List Support)
    (hL : 0 < inp.length) (hE : 0 < inp.E) (hI : 0 < inp.I)
    (hs : buildSupports inp.srows = some sups)
    (hbad :
      (∃ s ∈ sups, s.position < 0 ∨ inp.length < s.position) ∨
      (∃ l ∈ buildLoads inp.lrows,
        (∃ mag x, l = .pointLoadV mag x ∧ (x < 0 ∨ inp.length < x)) ∨
        (∃ mag a b, l = .udlv mag (a, b) ∧ (a < 0 ∨ inp.length < b ∨ b < a)) ∨
        (∃ mag x, l = .pointTorque mag x ∧ (x < 0 ∨ inp.length < x)))) :
    runPipeline inp = .error (.engine .invalidPosition) := by
  have hgeom : ¬ (inp.length ≤ 0 ∨ inp.E ≤ 0 ∨ inp.I ≤ 0) := by
    push_neg
    exact ⟨hL, hE, hI⟩
  have hall : ¬ ((sups.all (validSupport inp.length) &&
      (buildLoads inp.lrows).all (validLoad inp.length)) = true) := by
    intro hcontra
    rw [Bool.and_eq_true] at hcontra
    obtain ⟨hsall, hlall⟩ := hcontra
    rw [List.all_eq_true] at hsall hlall
    rcases hbad with ⟨s, hmem, hpos⟩ | ⟨l, hmem, hl⟩
    · have hv := hsall s hmem
      simp [validSupport] at hv
      rcases hpos with h | h <;> linarith [hv.1, hv.2]
    · have hv := hlall l hmem
      rcases hl with ⟨mag, x, rfl, hx⟩ | ⟨mag, a, b, rfl, hx⟩ | ⟨mag, x, rfl, hx⟩
      · simp [validLoad] at hv
        rcases hx with h | h <;> linarith [hv.1, hv.2]
      · simp [validLoad] at hv
        rcases hx with h | h | h <;> linarith [hv.1.1, hv.1.2, hv.2]
      · simp [validLoad] at hv
        rcases hx with h | h <;> linarith [hv.1, hv.2]
  simp only [runPipeline, hs]
  rw [if_neg hgeom]
  unfold buildModel
  rw [if_neg hgeom, if_neg hall]

/-- Witness for C6: a roller support at `x = 9` on a 6 m beam is rejected
with `InvalidPosition`. -/
theorem out_of_range_position_rejected_witness :
    runPipeline ⟨6, 1, 1, [⟨some 0, some ("Pin")⟩, ⟨some 9, some ("Roller")⟩], []⟩ =
      .error (.engine .invalidPosition) := by
  apply out_of_range_position_rejected _ [⟨0, (1, 1, 0)⟩, ⟨9, (0, 1, 0)⟩]
    (by norm_num) (by norm_num) (by norm_num)
  · norm_num [buildSupports, buildSupportList, dropnaSupports, buildSupport,
      SUPPORT_MAP, pin_ne_fixed, roller_ne_fixed, roller_ne_pin]
  · refine Or.inl ⟨⟨9, (0, 1, 0)⟩, by simp, Or.inr (by norm_num)⟩

/-- Helper for C7: building a load succeeds on every row whose `kind` is one
of the three dropdown labels and whose `magnitude` and `x` are present, so
the dispatch keeps one load per such row. -/
theorem filterMap_buildLoad_length (rs : List LoadRow)
    (h : ∀ r ∈ rs,
      (r.kind = some ("Point Load") ∨ r.kind = some ("UDL") ∨
        r.kind = some ("Torque")) ∧ r.magnitude.isSome ∧ r.x.isSome) :
    (rs.filterMap buildLoad).length = rs.length := by
  induction rs with
  | nil => simp
  | cons r rs ih =>
    obtain ⟨hk, hm, hx⟩ := h r (List.mem_cons_self r rs)
    obtain ⟨mag, hmv⟩ := Option.isSome_iff_exists.mp hm
    obtain ⟨x0, hxv⟩ := Option.isSome_iff_exists.mp hx
    have hsome : ∃ l, buildLoad r = some l := by
      rcases hk with h1 | h1 | h1
      · exact ⟨.pointLoadV mag x0, by simp [buildLoad, h1, hmv, hxv]⟩
      · exact ⟨.udlv mag (x0, r.x_end.getD x0),
          by simp [buildLoad, h1, hmv, hxv, udl_ne_pointload]⟩
      · exact ⟨.pointTorque mag x0,
          by simp [buildLoad, h1, hmv, hxv, torque_ne_pointload, torque_ne_udl]⟩
    obtain ⟨l, hl⟩ := hsome
    simp [List.filterMap_cons, hl, ih fun q hq => h q (List.mem_cons_of_mem _ hq)]

/-- C7: the load dispatch is exhaustive over the dropdown's variants — every
row that reaches the dispatch (survives `dropna` with one of the three kinds)
contributes exactly one load to the model; none is silently dropped. -/
theorem load_dispatch_exhaustive (rows : List LoadRow)
    (h : ∀ r ∈ dropnaLoads rows,
      r.kind = some ("Point Load") ∨ r.kind = some ("UDL") ∨
        r.kind = some ("Torque")) :
    (buildLoads rows).length = (dropnaLoads rows).length := by
  unfold buildLoads
  apply filterMap_buildLoad_length
  intro r hr
  have hk := h r hr
  unfold dropnaLoads at hr
  have hp := (List.mem_filter.mp hr).2
  simp only [Bool.and_eq_true] at hp
  exact ⟨hk, hp.1.2, hp.2⟩

/-- Witness for C7: a table with one row of each kind yields exactly three
loads. -/
theorem load_dispatch_exhaustive_witness :
    (buildLoads [⟨some ("Point Load"), some 1, some 2, none⟩,
        ⟨some ("UDL"), some 3, some 0, some 4⟩,
        ⟨some ("Torque"), some 5, some 6, none⟩]).length =
      (dropnaLoads [⟨some ("Point Load"), some 1, some 2, none⟩,
        ⟨some ("UDL"), some 3, some 0, some 4⟩,
        ⟨some ("Torque"), some 5, some 6, none⟩]).length := by
  apply load_dispatch_exhaustive
  intro r hr
  simp [dropnaLoads, List.filter] at hr
  rcases hr with rfl | rfl | rfl
  · exact Or.inl rfl
  · exact Or.inr (Or.inl rfl)
  · exact Or.inr (Or.inr rfl)

/-- C8: the analysis result of a submission is a pure function of the
submitted input: it is unchanged under any prior session state, equals the
pipeline run on the frozen input, and resubmitting the same input after the
session was updated reproduces the identical result. -/
theorem analysis_deterministic_stateless (s1 s2 : Session) (inp : Input) :
    (appStep s1 inp true).2 = (appStep s2 inp true).2 ∧
    (appStep s1 inp true).2 = some (runPipeline inp) ∧
    (appStep (appStep s1 inp true).1 inp true).2 = (appStep s1 inp true).2 := by
  simp [appStep]

/-- Witness for C8: the default submission gives the same analysis result
from an empty session and from a session already holding the tables. -/
theorem analysis_deterministic_stateless_witness :
    (appStep ⟨[], []⟩ defaultInput true).2 =
      (appStep ⟨DEFAULT_SUPPORTS, DEFAULT_LOADS⟩ defaultInput true).2 :=
  (analysis_deterministic_stateless ⟨[], []⟩ ⟨DEFAULT_SUPPORTS, DEFAULT_LOADS⟩
    defaultInput).1

/-- A submission whose only support sits at `x = 9` on a 6 m span: its
analysis fails with `InvalidPosition`. -/
def badSupportInput : Input :=
  ⟨6, 200e9, 9.05e-6, [⟨some 9, some ("Pin")⟩], DEFAULT_LOADS⟩

/-- C9: the cache does not follow a last-good-values lifecycle.  Starting
from a session holding the good default tables, submitting a failing input
(support at `x = 9` on the 6 m beam) leaves the failing tables in the cache:
the tables are written at lines 82-83 before `beam.analyse()` raises, so the
last good values do not survive a failed submission. -/
theorem failed_submission_overwrites_cache :
    (appStep ⟨DEFAULT_SUPPORTS, DEFAULT_LOADS⟩ badSupportInput true).2 =
      some (.error (.engine .invalidPosition)) ∧
    (appStep ⟨DEFAULT_SUPPORTS, DEFAULT_LOADS⟩ badSupportInput true).1 =
      ⟨badSupportInput.srows, badSupportInput.lrows⟩ ∧
    (appStep ⟨DEFAULT_SUPPORTS, DEFAULT_LOADS⟩ badSupportInput true).1 ≠
      ⟨DEFAULT_SUPPORTS, DEFAULT_LOADS⟩ := by
  refine ⟨?_, by simp [appStep], ?_⟩
  · simp only [appStep, if_pos]
    norm_num [runPipeline, badSupportInput, DEFAULT_LOADS, DEFAULT_L,
      buildSupports, buildSupportList, dropnaSupports, buildSupport, SUPPORT_MAP,
      buildLoads, dropnaLoads, buildLoad, buildModel, validSupport, validLoad,
      List.filterMap_cons, List.filterMap_nil, Option.getD, pin_ne_fixed]
  · simp [appStep, badSupportInput, DEFAULT_SUPPORTS]

/-- C10: a support row with a missing cell, and a load row missing its kind,
magnitude or start position, are silently dropped before the model is built:
the run is identical to the run without those rows, producing no
`InvalidPosition` or other failure on their account. -/
theorem missing_cells_silently_dropped (r : SupportRow) (l : LoadRow) (inp : Input)
    (hr : r.x = none ∨ r.type = none)
    (hl : l.kind = none ∨ l.magnitude = none ∨ l.x = none) :
    runPipeline ⟨inp.length, inp.E, inp.I, r :: inp.srows, l :: inp.lrows⟩ =
      runPipeline inp := by
  have hds : dropnaSupports (r :: inp.srows) = dropnaSupports inp.srows := by
    rcases hr with h | h <;> simp [dropnaSupports, List.filter_cons, h]
  have hdl : dropnaLoads (l :: inp.lrows) = dropnaLoads inp.lrows := by
    rcases hl with h | h | h <;> simp [dropnaLoads, List.filter_cons, h]
  simp only [runPipeline, buildSupports, buildLoads, hds, hdl]

/-- Witness for C10: a support row with no position and a load row with no
kind are dropped; the run equals the run on the empty tables. -/
theorem missing_cells_silently_dropped_witness :
    runPipeline ⟨6, 1, 1, [⟨none, some ("Pin")⟩], [⟨none, some 2, some 1, none⟩]⟩ =
      runPipeline ⟨6, 1, 1, [], []⟩ :=
  missing_cells_silently_dropped ⟨none, some ("Pin")⟩ ⟨none, some 2, some 1, none⟩
    ⟨6, 1, 1, [], []⟩ (Or.inl rfl) (Or.inl rfl)

end Advancedbeam
